import Mathlib

/-
Verification of the chat front-end in src/streamlit_app.py.

The file shallowly embeds the two components of the app:
  * the bootstrap loader (bootstrap_notebook, lines 18-48): cell iteration,
    the skip rule for magic/interactive cells, the maybe_patch source rewrite,
    and the memoization wrapper;
  * the chat session controller (lines 72-129): the history data model, the
    dual outbound message-list builders, the reply extraction over the three
    possible graph result shapes, and the per-turn exception handling.

Python values relevant to extraction are modelled with Option String, where
none models Python None / a missing key, and Python truthiness (None and ""
are falsy) is modelled by isFalsy.
-/

/-- A chat history entry, Python dict {role, content} (src lines 75, 85, 129). -/
structure Message where
  role : String
  content : String
deriving DecidableEq, Repr

/-- The synthetic greeting content (src line 75). -/
def GREETING : String := "Hi! I’m GRACIE. Ask me about properties, zip codes, CMAs, or NPV."

/-- The initial session history (src lines 72-75): one assistant greeting. -/
def initial_history : List Message := [{ role := "assistant", content := GREETING }]

/-- A typed outbound message (langchain HumanMessage / AIMessage, src lines 91-96). -/
inductive LCMessage where
  | human (content : String)
  | ai (content : String)
deriving DecidableEq, Repr

/-- The role a typed message carries (HumanMessage stands for role "user"). -/
def LCMessage.role : LCMessage → String
  | LCMessage.human _ => "user"
  | LCMessage.ai _ => "assistant"

/-- The content a typed message carries. -/
def LCMessage.content : LCMessage → String
  | LCMessage.human c => c
  | LCMessage.ai c => c

/-- Typed builder (src lines 91-96): user entries become HumanMessage, assistant
entries become AIMessage, anything else is dropped by the if/elif chain. -/
def lc_messages_typed (history : List Message) : List LCMessage :=
  history.filterMap (fun m =>
    if m.role = "user" then some (LCMessage.human m.content)
    else if m.role = "assistant" then some (LCMessage.ai m.content)
    else none)

/-- Fallback builder (src line 99): plain {role, content} dicts for every entry. -/
def lc_messages_fallback (history : List Message) : List Message :=
  history.map (fun m => { role := m.role, content := m.content })

/-- The outbound message list, one of the two shapes (src lines 90-99). -/
inductive Outbound where
  | typed (msgs : List LCMessage)
  | plain (msgs : List Message)
deriving DecidableEq, Repr

/-- Build the outbound list: typed when the message classes imported, else plain
(src lines 91-99). -/
def build_outbound (typed : Bool) (history : List Message) : Outbound :=
  if typed then Outbound.typed (lc_messages_typed history)
  else Outbound.plain (lc_messages_fallback history)

/-- A message-like element of a result's "messages" sequence (src lines 112-117):
an object exposing a content attribute, a dict with an optional "content" key,
or anything else. -/
inductive PyMsg where
  | obj (content : Option String)
  | dict (content : Option String)
  | other
deriving DecidableEq, Repr

/-- What the extraction reads off the last element (src lines 114-117):
the content attribute when exposed, else the dict "content" entry, else None. -/
def msgContent : PyMsg → Option String
  | PyMsg.obj c => c
  | PyMsg.dict c => c
  | PyMsg.other => none

/-- A graph invocation result (src lines 109-120): a dict whose "messages" key
may be absent (none) or hold a list, a plain string, or any other shape. -/
inductive GraphResult where
  | pyDict (messages : Option (List PyMsg))
  | pyStr (s : String)
  | other
deriving DecidableEq, Repr

/-- Whether a result is a Python str. -/
def GraphResult.isStr : GraphResult → Bool
  | GraphResult.pyStr _ => true
  | _ => false

/-- Python truthiness of the extracted text: None and "" are falsy. -/
def isFalsy : Option String → Bool
  | none => true
  | some s => decide (s = "")

/-- The fixed placeholder (src line 122). -/
def PLACEHOLDER : String := "✅ (No content returned by the graph.)"

/-- Step one of extraction (src lines 109-117): dict with a truthy "messages"
list ⇒ read the last element, else None. -/
def extractText : GraphResult → Option String
  | GraphResult.pyDict (some msgs) =>
    match msgs.getLast? with
    | some m => msgContent m
    | none => none
  | _ => none

/-- Step three (src line 122): assistant_text or PLACEHOLDER. -/
def finalize : Option String → String
  | none => PLACEHOLDER
  | some s => if s = "" then PLACEHOLDER else s

/-- Full reply extraction (src lines 107-122): dict path, then the string
fallback guarded by falsiness, then the placeholder. -/
def assistant_text (result : GraphResult) : String :=
  finalize
    (if isFalsy (extractText result) then
      match result with
      | GraphResult.pyStr s => some s
      | _ => extractText result
    else extractText result)

/-- The f-string built on the exception path (src line 124). -/
def errorReply (e : String) : String :=
  "⚠️ Error while running the agent: `" ++ e ++ "`"

/-- Outcome of one graph invocation: a returned value or a raised exception
carrying str(e). -/
inductive GraphOutcome where
  | ok (r : GraphResult)
  | exn (e : String)
deriving DecidableEq, Repr

/-- The reply text one turn produces (src lines 102-124). -/
def replyOf (typed : Bool) (graph : Outbound → GraphOutcome)
    (history : List Message) (text : String) : String :=
  match graph (build_outbound typed (history ++ [{ role := "user", content := text }])) with
  | GraphOutcome.ok r => assistant_text r
  | GraphOutcome.exn e => errorReply e

/-- One user submission (src lines 83-129): append the user message, build the
outbound list, invoke the graph, extract or trap, append the assistant message. -/
def submit (typed : Bool) (graph : Outbound → GraphOutcome)
    (history : List Message) (text : String) : List Message :=
  let h1 := history ++ [{ role := "user", content := text }]
  let reply :=
    match graph (build_outbound typed h1) with
    | GraphOutcome.ok r => assistant_text r
    | GraphOutcome.exn e => errorReply e
  h1 ++ [{ role := "assistant", content := reply }]

/-- A whole session: the greeting, then one submit per user input. -/
def run_session (typed : Bool) (graph : Outbound → GraphOutcome)
    (inputs : List String) : List Message :=
  List.foldl (fun h t => submit typed graph h t) initial_history inputs

/-- A notebook cell (nbformat): its type tag and its source blob, which Python
may hold as None (src lines 38-41, `cell.source or ""`). -/
structure Cell where
  cell_type : String
  source : Option String
deriving DecidableEq, Repr

/-- pat is an initial segment of text (character lists). -/
def listHasPre : List Char → List Char → Bool
  | [], _ => true
  | _ :: _, [] => false
  | p :: ps, t :: ts => p == t && listHasPre ps ts

/-- pat occurs somewhere in text, the Python `in` operator on str. -/
def listHasSub (pat : List Char) : List Char → Bool
  | [] => pat.isEmpty
  | c :: ts => listHasPre pat (c :: ts) || listHasSub pat ts

/-- Python `pat in s` (src lines 29, 43). -/
def containsSub (s pat : String) : Bool := listHasSub pat.data s.data

/-- Drop leading whitespace of a character list. -/
def stripLeft : List Char → List Char
  | [] => []
  | c :: cs => if c.isWhitespace then stripLeft cs else c :: cs

/-- Python str.strip(): whitespace removed at both ends (src line 43). -/
def pyStrip (s : String) : List Char :=
  List.reverse (stripLeft (List.reverse (stripLeft s.data)))

/-- Python `src.strip().startswith("%")` (src line 43). -/
def startsPercent (s : String) : Bool :=
  match pyStrip s with
  | [] => false
  | c :: _ => c == '%'

/-- The two-line substitute source written by the patcher (src lines 30-33). -/
def PATCHED_SRC : String :=
  "import os\nfile_path = os.environ.get(\x27REDFIN_CSV_PATH\x27, \x27data/redfin.csv\x27)\n"

/-- The patcher (src lines 28-34): when the source holds all three markers the
whole cell source is replaced by PATCHED_SRC, otherwise it is returned as is. -/
def maybe_patch (src : String) : String :=
  if containsSub src "file_path =" && containsSub src "redfin.csv"
      && containsSub src "/content/drive" then PATCHED_SRC
  else src

/-- The cell loop of bootstrap_notebook (src lines 38-45), generic in the
namespace type NS and in the interpreter execCell, which maps an executed
source and a namespace to the new namespace plus the text the cell wrote to
stdout and to stderr. Non-code cells, magic cells and cells holding a blocking
input call are skipped; every executed cell runs through maybe_patch. -/
def runCells {NS : Type} (execCell : String → NS → NS × String × String) :
    List Cell → NS → NS × String × String
  | [], g => (g, "", "")
  | c :: rest, g =>
    if c.cell_type ≠ "code" then runCells execCell rest g
    else
      let src := c.source.getD ""
      if startsPercent src || containsSub src "input(" then runCells execCell rest g
      else
        let p := execCell (maybe_patch src) g
        let q := runCells execCell rest p.1
        (q.1, p.2.1 ++ q.2.1, p.2.2 ++ q.2.2)

/-- The combined boot log (src line 47): stdout, a newline, stderr. -/
def bootstrap_run {NS : Type} (execCell : String → NS → NS × String × String)
    (cells : List Cell) (g : NS) : NS × String :=
  let r := runCells execCell cells g
  (r.1, r.2.1 ++ "\n" ++ r.2.2)

/-- The seed value of file_path (src line 15): REDFIN_CSV_PATH with default. -/
def DEFAULT_REDFIN (env : String → Option String) : String :=
  (env "REDFIN_CSV_PATH").getD "data/redfin.csv"

/-- Modelled from the spec: the effect, on a string-valued variable binding
list, of the Python interpreter executing the two-line substitute source (the
interpreter itself is not part of src/): it imports os and rebinds file_path
to the REDFIN_CSV_PATH environment value with default data/redfin.csv. -/
def execPatchedModel (env : String → Option String)
    (g : List (String × String)) : List (String × String) :=
  ("file_path", DEFAULT_REDFIN env) :: g.filter (fun p => p.1 ≠ "file_path")

/-- Modelled from the spec: one call through the st.cache_resource wrapper
(src line 18, the decorator body is not part of src/): a process-wide cache
keyed by the argument; a miss computes, stores and reports that the side
effects ran, a hit returns the stored pair untouched. -/
def cacheCall {α : Type} (compute : String → α) (cache : List (String × α))
    (path : String) : α × List (String × α) × Bool :=
  match cache.lookup path with
  | some v => (v, cache, false)
  | none => (compute path, (path, compute path) :: cache, true)

/-- n successive calls of the cached bootstrap with one fixed path: the list of
returned values, the final cache, and how many calls ran the side effects. -/
def cacheCalls {α : Type} (compute : String → α) (path : String) :
    Nat → List (String × α) → List α × List (String × α) × Nat
  | 0, cache => ([], cache, 0)
  | Nat.succ n, cache =>
    let r := cacheCall compute cache path
    let s := cacheCalls compute path n r.2.1
    (r.1 :: s.1, s.2.1, (if r.2.2 then 1 else 0) + s.2.2)

example : assistant_text (GraphResult.pyDict (some [PyMsg.dict (some "X")])) = "X" := by decide
example : assistant_text (GraphResult.pyStr "Y") = "Y" := by decide
example : assistant_text (GraphResult.pyDict none) = PLACEHOLDER := by decide
example : assistant_text (GraphResult.pyStr "") = PLACEHOLDER := by decide
example : assistant_text (GraphResult.pyDict (some [PyMsg.dict (some "")])) = PLACEHOLDER := by decide
example : containsSub "file_path = \x27/content/drive/My/redfin.csv\x27" "redfin.csv" = true := by decide
example : maybe_patch "x = 1" = "x = 1" := by decide
example : maybe_patch "file_path = \x27/content/drive/My/redfin.csv\x27" = PATCHED_SRC := by decide
example : startsPercent "  %pip install x" = true := by decide
example : startsPercent "import os" = false := by decide

/-- One submission appends exactly the user entry and the assistant entry
carrying the extracted reply, after the given history. -/
theorem submit_append (typed : Bool) (graph : Outbound → GraphOutcome)
    (h : List Message) (t : String) :
    submit typed graph h t =
      h ++ [{ role := "user", content := t },
            { role := "assistant", content := replyOf typed graph h t }] := by
  simp only [submit, replyOf, List.append_assoc]
  rfl

/-- The final falsy-replacement step never yields the empty string. -/
theorem finalize_ne_empty (t : Option String) : finalize t ≠ "" := by
  match t with
  | none =>
    simp only [finalize, PLACEHOLDER]
    decide
  | some s =>
    by_cases hs : s = ""
    · simp only [finalize, hs, if_pos rfl, PLACEHOLDER]
      decide
    · simp [finalize, hs]

/-- The reply extracted from any returned result is non-empty. -/
theorem assistant_text_ne_empty (r : GraphResult) : assistant_text r ≠ "" := by
  unfold assistant_text
  apply finalize_ne_empty

/-- The reply built on the exception path is non-empty. -/
theorem errorReply_ne_empty (e : String) : errorReply e ≠ "" := by
  intro heq
  have hlen := congrArg String.length heq
  simp [errorReply, String.length_append] at hlen
  exact absurd hlen.1.1 (by decide)

/-- Whatever the graph does, the reply of a turn is non-empty. -/
theorem replyOf_ne_empty (typed : Bool) (graph : Outbound → GraphOutcome)
    (h : List Message) (t : String) : replyOf typed graph h t ≠ "" := by
  unfold replyOf
  cases hg : graph (build_outbound typed (h ++ [{ role := "user", content := t }])) with
  | ok r => exact assistant_text_ne_empty r
  | exn e => exact errorReply_ne_empty e

/-- Folding submissions over any starting history grows it by two per input. -/
theorem foldl_submit_length (typed : Bool) (graph : Outbound → GraphOutcome)
    (inputs : List String) (h : List Message) :
    (List.foldl (fun h t => submit typed graph h t) h inputs).length =
      h.length + 2 * inputs.length := by
  induction inputs generalizing h with
  | nil => simp
  | cons t rest ih =>
    simp only [List.foldl_cons]
    rw [ih, submit_append]
    simp only [List.length_append, List.length_cons, List.length_nil]
    omega

/-- A falsy extracted text always finalizes to the placeholder. -/
theorem finalize_falsy (t : Option String) (ht : isFalsy t = true) :
    finalize t = PLACEHOLDER := by
  cases t with
  | none => rfl
  | some s =>
    have hs : s = "" := by simpa [isFalsy] using ht
    simp [finalize, hs]

/-- For a result that is not a Python str, the string fallback never fires and
the reply is the finalized first-step extraction. -/
theorem assistant_text_not_str (r : GraphResult) (hstr : r.isStr = false) :
    assistant_text r = finalize (extractText r) := by
  cases r with
  | pyDict o =>
    by_cases hf : isFalsy (extractText (GraphResult.pyDict o)) = true <;>
      simp [assistant_text, hf]
  | pyStr s => exact absurd hstr (by simp [GraphResult.isStr])
  | other =>
    by_cases hf : isFalsy (extractText GraphResult.other) = true <;>
      simp [assistant_text, hf]

/-- C3: history is append-only: it starts as the single synthetic assistant
greeting; each submission appends exactly one user entry holding the submitted
text followed by one assistant entry, leaving the earlier entries unchanged;
after N submissions the history length is exactly 1 + 2N. -/
theorem spec_c3_history_append_only (typed : Bool) (graph : Outbound → GraphOutcome)
    (inputs : List String) (t : String) :
    initial_history = [{ role := "assistant", content := GREETING }] ∧
    (∀ h u, ∃ r, submit typed graph h u =
        h ++ [{ role := "user", content := u }, { role := "assistant", content := r }]) ∧
    (run_session typed graph inputs).length = 1 + 2 * inputs.length ∧
    (∃ r, run_session typed graph (inputs ++ [t]) =
        run_session typed graph inputs ++
          [{ role := "user", content := t }, { role := "assistant", content := r }]) := by
  refine ⟨rfl, ?_, ?_, ?_⟩
  · intro h u
    exact ⟨replyOf typed graph h u, submit_append typed graph h u⟩
  · unfold run_session
    rw [foldl_submit_length]
    simp [initial_history]
  · unfold run_session
    rw [List.foldl_append]
    simp only [List.foldl_cons, List.foldl_nil]
    exact ⟨replyOf typed graph _ t, submit_append typed graph _ t⟩

/-- C10: every assistant entry a submission appends has non-empty content: a
falsy extracted reply is replaced by the non-empty fixed placeholder and the
exception path always formats a non-empty error string. -/
theorem spec_c10_assistant_content_nonempty (typed : Bool)
    (graph : Outbound → GraphOutcome) (h : List Message) (t : String) :
    (∃ r, submit typed graph h t =
        h ++ [{ role := "user", content := t }, { role := "assistant", content := r }] ∧
      r ≠ "") ∧
    PLACEHOLDER ≠ "" ∧ (∀ e, errorReply e ≠ "") :=
  ⟨⟨replyOf typed graph h t, submit_append typed graph h t,
     replyOf_ne_empty typed graph h t⟩,
   by decide, errorReply_ne_empty⟩

/-- C2: when the graph invocation raises, the exception does not escape the
turn: the appended assistant entry embeds the exception text (the error reply
decomposes as a non-empty front part, the exception text, and a tail), and the
prior history together with the just-appended user entry is preserved. -/
theorem spec_c2_exception_trapped (typed : Bool) (graph : Outbound → GraphOutcome)
    (h : List Message) (t e : String)
    (hg : graph (build_outbound typed (h ++ [{ role := "user", content := t }])) =
        GraphOutcome.exn e) :
    submit typed graph h t =
      h ++ [{ role := "user", content := t },
            { role := "assistant", content := errorReply e }] ∧
    (∃ front tail, front ≠ "" ∧ errorReply e = front ++ e ++ tail) := by
  constructor
  · rw [submit_append]
    unfold replyOf
    rw [hg]
  · exact ⟨"⚠️ Error while running the agent: `", "`", by decide, rfl⟩

/-- Witness for C2 at the spec's stub: a graph raising "boom". -/
theorem spec_c2_exception_trapped_witness :
    submit false (fun _ => GraphOutcome.exn "boom") [] "hi" =
      [] ++ [{ role := "user", content := "hi" },
             { role := "assistant", content := errorReply "boom" }] ∧
    (∃ front tail, front ≠ "" ∧ errorReply "boom" = front ++ "boom" ++ tail) :=
  spec_c2_exception_trapped false (fun _ => GraphOutcome.exn "boom") [] "hi" "boom" rfl

/-- C1 (amended): for a result that is a mapping with a non-empty "messages"
sequence, when the last element's content — its content attribute when
exposed, else its "content" mapping entry — is a non-empty string c, the
submission appends an assistant entry with content exactly c. (As stated over
every such result the claim fails when that content is the empty string, which
the extraction treats as falsy and replaces by the placeholder.) -/
theorem spec_c1_last_message_content (typed : Bool) (graph : Outbound → GraphOutcome)
    (h : List Message) (t : String) (msgs : List PyMsg) (m : PyMsg) (c : String)
    (hg : graph (build_outbound typed (h ++ [{ role := "user", content := t }])) =
        GraphOutcome.ok (GraphResult.pyDict (some msgs)))
    (hl : msgs.getLast? = some m)
    (hc : msgContent m = some c)
    (hne : c ≠ "") :
    submit typed graph h t =
      h ++ [{ role := "user", content := t }, { role := "assistant", content := c }] := by
  have hx : extractText (GraphResult.pyDict (some msgs)) = some c := by
    simp only [extractText, hl, hc]
  have hfal : isFalsy (extractText (GraphResult.pyDict (some msgs))) = false := by
    rw [hx]
    simp [isFalsy, hne]
  have hy : assistant_text (GraphResult.pyDict (some msgs)) = c := by
    rw [assistant_text_not_str _ (by simp [GraphResult.isStr]), hx]
    simp [finalize, hne]
  rw [submit_append]
  unfold replyOf
  rw [hg]
  simp only [hy]

/-- Counterexample to C1 as stated: a result whose last message carries the
"content" entry "" yields the fixed placeholder, not that content. -/
theorem spec_c1_counterexample :
    submit false
        (fun _ => GraphOutcome.ok (GraphResult.pyDict (some [PyMsg.dict (some "")])))
        [] "hi" =
      [{ role := "user", content := "hi" },
       { role := "assistant", content := PLACEHOLDER }] ∧
    msgContent (PyMsg.dict (some "")) = some "" ∧ PLACEHOLDER ≠ "" := by
  refine ⟨by decide, rfl, by decide⟩

/-- Witness for C1 at the spec's stub {"messages":[{"content":"X"}]}. -/
theorem spec_c1_last_message_content_witness :
    submit false
        (fun _ => GraphOutcome.ok (GraphResult.pyDict (some [PyMsg.dict (some "X")])))
        [] "q" =
      [] ++ [{ role := "user", content := "q" }, { role := "assistant", content := "X" }] :=
  spec_c1_last_message_content false
    (fun _ => GraphOutcome.ok (GraphResult.pyDict (some [PyMsg.dict (some "X")])))
    [] "q" [PyMsg.dict (some "X")] (PyMsg.dict (some "X")) "X" rfl rfl rfl (by decide)

/-- C5 (amended): a result that is directly a non-empty string is appended
verbatim as the assistant entry's content. (As stated over every string the
claim fails at the empty string, which is falsy and becomes the placeholder.) -/
theorem spec_c5_string_result (typed : Bool) (graph : Outbound → GraphOutcome)
    (h : List Message) (t s : String)
    (hg : graph (build_outbound typed (h ++ [{ role := "user", content := t }])) =
        GraphOutcome.ok (GraphResult.pyStr s))
    (hs : s ≠ "") :
    submit typed graph h t =
      h ++ [{ role := "user", content := t }, { role := "assistant", content := s }] := by
  have hy : assistant_text (GraphResult.pyStr s) = s := by
    unfold assistant_text extractText
    simp [isFalsy, finalize, hs]
  rw [submit_append]
  unfold replyOf
  rw [hg]
  simp only [hy]

/-- Counterexample to C5 as stated: the graph returning the string "" yields
the fixed placeholder, not "" verbatim. -/
theorem spec_c5_counterexample :
    submit false (fun _ => GraphOutcome.ok (GraphResult.pyStr "")) [] "hi" =
      [{ role := "user", content := "hi" },
       { role := "assistant", content := PLACEHOLDER }] ∧
    PLACEHOLDER ≠ "" := by
  refine ⟨by decide, by decide⟩

/-- Witness for C5 at the spec's stub: the graph returning "Y". -/
theorem spec_c5_string_result_witness :
    submit true (fun _ => GraphOutcome.ok (GraphResult.pyStr "Y")) [] "q" =
      [] ++ [{ role := "user", content := "q" }, { role := "assistant", content := "Y" }] :=
  spec_c5_string_result true (fun _ => GraphOutcome.ok (GraphResult.pyStr "Y"))
    [] "q" "Y" rfl (by decide)

/-- C7: a result that is not a string and from which step one extracts nothing
truthy — a mapping without "messages", with an empty sequence, or whose last
element yields no (truthy) content — makes the submission append the fixed
placeholder assistant entry. -/
theorem spec_c7_placeholder_result (typed : Bool) (graph : Outbound → GraphOutcome)
    (h : List Message) (t : String) (r : GraphResult)
    (hg : graph (build_outbound typed (h ++ [{ role := "user", content := t }])) =
        GraphOutcome.ok r)
    (hstr : r.isStr = false)
    (hfal : isFalsy (extractText r) = true) :
    submit typed graph h t =
      h ++ [{ role := "user", content := t },
            { role := "assistant", content := PLACEHOLDER }] := by
  rw [submit_append]
  unfold replyOf
  rw [hg]
  simp only [assistant_text_not_str r hstr, finalize_falsy _ hfal]

/-- Witness for C7 at the spec's stub: the graph returning the empty dict. -/
theorem spec_c7_placeholder_result_witness :
    submit false (fun _ => GraphOutcome.ok (GraphResult.pyDict none)) [] "hi" =
      [] ++ [{ role := "user", content := "hi" },
             { role := "assistant", content := PLACEHOLDER }] :=
  spec_c7_placeholder_result false (fun _ => GraphOutcome.ok (GraphResult.pyDict none))
    [] "hi" (GraphResult.pyDict none) rfl rfl rfl

/-- On an all-user/assistant history the typed builder keeps every entry, in
order, with the entry's role and content. -/
theorem typed_builder_pairs (h : List Message) :
    (∀ m ∈ h, m.role = "user" ∨ m.role = "assistant") →
    (lc_messages_typed h).map (fun m => (m.role, m.content)) =
      h.map (fun m => (m.role, m.content)) := by
  induction h with
  | nil => intro _; rfl
  | cons m rest ih =>
    intro hr
    have hm := hr m (List.mem_cons_self m rest)
    have hrest : ∀ x ∈ rest, x.role = "user" ∨ x.role = "assistant" :=
      fun x hx => hr x (List.mem_cons_of_mem m hx)
    rcases hm with hu | ha
    · have hstep : lc_messages_typed (m :: rest) =
          LCMessage.human m.content :: lc_messages_typed rest := by
        simp [lc_messages_typed, hu]
      rw [hstep, List.map_cons, List.map_cons, ih hrest]
      simp [LCMessage.role, LCMessage.content, hu]
    · have hstep : lc_messages_typed (m :: rest) =
          LCMessage.ai m.content :: lc_messages_typed rest := by
        simp [lc_messages_typed, ha]
      rw [hstep, List.map_cons, List.map_cons, ih hrest]
      simp [LCMessage.role, LCMessage.content, ha]

/-- The fallback builder keeps every entry, in order, with its role and content. -/
theorem fallback_builder_pairs (h : List Message) :
    (lc_messages_fallback h).map (fun m => (m.role, m.content)) =
      h.map (fun m => (m.role, m.content)) := by
  induction h with
  | nil => rfl
  | cons m rest ih => simp [lc_messages_fallback, ih]

/-- C8: on a history whose entries all carry role "user" or "assistant", the
typed (HumanMessage/AIMessage) outbound list and the plain {role, content}
fallback list are functionally equivalent: elementwise they carry the same
role and the same content as the history entries, in the same order, and they
have the same length. -/
theorem spec_c8_dual_builder_equivalent (h : List Message)
    (hr : ∀ m ∈ h, m.role = "user" ∨ m.role = "assistant") :
    ((lc_messages_typed h).map (fun m => (m.role, m.content)) =
      h.map (fun m => (m.role, m.content))) ∧
    ((lc_messages_fallback h).map (fun m => (m.role, m.content)) =
      h.map (fun m => (m.role, m.content))) ∧
    (lc_messages_typed h).length = (lc_messages_fallback h).length := by
  have h1 := typed_builder_pairs h hr
  have h2 := fallback_builder_pairs h
  refine ⟨h1, h2, ?_⟩
  have l1 := congrArg List.length h1
  have l2 := congrArg List.length h2
  simp only [List.length_map] at l1 l2
  rw [l1, l2]

/-- A tiny two-entry history used to instantiate the builder equivalence. -/
def sampleHistory : List Message :=
  [{ role := "user", content := "a" }, { role := "assistant", content := "b" }]

/-- Witness for C8 on a two-entry history. -/
theorem spec_c8_dual_builder_equivalent_witness :
    ((lc_messages_typed sampleHistory).map (fun m => (m.role, m.content)) =
      sampleHistory.map (fun m => (m.role, m.content))) ∧
    ((lc_messages_fallback sampleHistory).map (fun m => (m.role, m.content)) =
      sampleHistory.map (fun m => (m.role, m.content))) ∧
    (lc_messages_typed sampleHistory).length = (lc_messages_fallback sampleHistory).length :=
  spec_c8_dual_builder_equivalent sampleHistory (by decide)

/-- A cell that is not code, or whose source trims to a magic marker or holds
a blocking input call, contributes nothing to the run. -/
theorem runCells_skip {NS : Type} (execCell : String → NS → NS × String × String)
    (c : Cell) (rest : List Cell) (g : NS)
    (hskip : c.cell_type ≠ "code" ∨ startsPercent (c.source.getD "") = true ∨
      containsSub (c.source.getD "") "input(" = true) :
    runCells execCell (c :: rest) g = runCells execCell rest g := by
  by_cases hc : c.cell_type = "code"
  · rcases hskip with h | h | h
    · exact absurd hc h
    · simp [runCells, hc, h]
    · simp [runCells, hc, h]
  · simp [runCells, hc]

/-- An executed code cell runs its patched source and its streams lead the log. -/
theorem runCells_exec {NS : Type} (execCell : String → NS → NS × String × String)
    (c : Cell) (rest : List Cell) (g : NS)
    (hc : c.cell_type = "code")
    (hmag : startsPercent (c.source.getD "") = false)
    (hinp : containsSub (c.source.getD "") "input(" = false) :
    runCells execCell (c :: rest) g =
      ((runCells execCell rest (execCell (maybe_patch (c.source.getD "")) g).1).1,
        (execCell (maybe_patch (c.source.getD "")) g).2.1 ++
          (runCells execCell rest (execCell (maybe_patch (c.source.getD "")) g).1).2.1,
        (execCell (maybe_patch (c.source.getD "")) g).2.2 ++
          (runCells execCell rest (execCell (maybe_patch (c.source.getD "")) g).1).2.2) := by
  simp [runCells, hc, hmag, hinp]

/-- C6: a code cell whose stripped source begins with the magic marker, or
whose source holds a blocking input call, is skipped entirely: the namespace
and the captured streams equal those of the run on the notebook with that cell
absent, whatever the interpreter does on executed cells. -/
theorem spec_c6_skipped_cell_no_effect (NS : Type)
    (execCell : String → NS → NS × String × String)
    (before after : List Cell) (c : Cell) (g : NS)
    (hcode : c.cell_type = "code")
    (hskip : startsPercent (c.source.getD "") = true ∨
      containsSub (c.source.getD "") "input(" = true) :
    runCells execCell (before ++ c :: after) g = runCells execCell (before ++ after) g := by
  induction before generalizing g with
  | nil =>
    simpa using runCells_skip execCell c after g (Or.inr hskip)
  | cons d rest ih =>
    simp only [List.cons_append]
    by_cases hd : d.cell_type = "code"
    · by_cases hm : startsPercent (d.source.getD "") = true
      · rw [runCells_skip execCell d (rest ++ c :: after) g (Or.inr (Or.inl hm)),
          runCells_skip execCell d (rest ++ after) g (Or.inr (Or.inl hm)), ih]
      · by_cases hi : containsSub (d.source.getD "") "input(" = true
        · rw [runCells_skip execCell d (rest ++ c :: after) g (Or.inr (Or.inr hi)),
            runCells_skip execCell d (rest ++ after) g (Or.inr (Or.inr hi)), ih]
        · have hm' : startsPercent (d.source.getD "") = false := by simpa using hm
          have hi' : containsSub (d.source.getD "") "input(" = false := by simpa using hi
          rw [runCells_exec execCell d (rest ++ c :: after) g hd hm' hi',
            runCells_exec execCell d (rest ++ after) g hd hm' hi', ih]
    · rw [runCells_skip execCell d (rest ++ c :: after) g (Or.inl hd),
        runCells_skip execCell d (rest ++ after) g (Or.inl hd), ih]

/-- Witness for C6: a magic cell in the middle of a small notebook. -/
theorem spec_c6_skipped_cell_no_effect_witness :
    runCells (fun s (n : Nat) => (n + s.length, s, ""))
        ([Cell.mk "code" (some "x = 1")] ++
          Cell.mk "code" (some "  %pip install foo") :: [Cell.mk "code" (some "y = 2")]) 0 =
      runCells (fun s (n : Nat) => (n + s.length, s, ""))
        ([Cell.mk "code" (some "x = 1")] ++ [Cell.mk "code" (some "y = 2")]) 0 :=
  spec_c6_skipped_cell_no_effect Nat (fun s (n : Nat) => (n + s.length, s, ""))
    [Cell.mk "code" (some "x = 1")] [Cell.mk "code" (some "y = 2")]
    (Cell.mk "code" (some "  %pip install foo")) 0 rfl (Or.inl (by decide))

/-- C4: a code cell whose source holds the assignment text "file_path =", the
filename "redfin.csv" and the mount path "/content/drive" all at once is
executed as the two-line substitute source PATCHED_SRC; under the modelled
interpreter for that substitute, file_path then resolves to the
REDFIN_CSV_PATH environment value with default data/redfin.csv; and any
source missing one of the three markers passes through the patcher unchanged. -/
theorem spec_c4_patch_rule (NS : Type) (execCell : String → NS → NS × String × String)
    (c : Cell) (rest : List Cell) (g : NS)
    (env : String → Option String) (gm : List (String × String))
    (hc : c.cell_type = "code")
    (h1 : containsSub (c.source.getD "") "file_path =" = true)
    (h2 : containsSub (c.source.getD "") "redfin.csv" = true)
    (h3 : containsSub (c.source.getD "") "/content/drive" = true)
    (hmag : startsPercent (c.source.getD "") = false)
    (hinp : containsSub (c.source.getD "") "input(" = false) :
    maybe_patch (c.source.getD "") = PATCHED_SRC ∧
    runCells execCell (c :: rest) g =
      ((runCells execCell rest (execCell PATCHED_SRC g).1).1,
        (execCell PATCHED_SRC g).2.1 ++
          (runCells execCell rest (execCell PATCHED_SRC g).1).2.1,
        (execCell PATCHED_SRC g).2.2 ++
          (runCells execCell rest (execCell PATCHED_SRC g).1).2.2) ∧
    (∀ src, (containsSub src "file_path =" && containsSub src "redfin.csv"
        && containsSub src "/content/drive") = false → maybe_patch src = src) ∧
    (execPatchedModel env gm).lookup "file_path" = some (DEFAULT_REDFIN env) := by
  have hp : maybe_patch (c.source.getD "") = PATCHED_SRC := by
    simp [maybe_patch, h1, h2, h3]
  refine ⟨hp, ?_, ?_, ?_⟩
  · rw [runCells_exec execCell c rest g hc hmag hinp, hp]
  · intro src hsrc
    simp [maybe_patch, hsrc]
  · simp [execPatchedModel, List.lookup]

/-- A driven-from-Drive cell source for instantiating the patch rule. -/
def drivePathCell : Cell :=
  Cell.mk "code" (some "file_path = \x27/content/drive/MyDrive/redfin.csv\x27")

/-- Witness for C4 at a hardcoded Drive path cell. -/
theorem spec_c4_patch_rule_witness :
    maybe_patch (drivePathCell.source.getD "") = PATCHED_SRC ∧
    runCells (fun s (n : Nat) => (n + s.length, s, "")) [drivePathCell] 0 =
      ((runCells (fun s (n : Nat) => (n + s.length, s, ""))
          [] ((fun s (n : Nat) => (n + s.length, s, "")) PATCHED_SRC 0).1).1,
        ((fun s (n : Nat) => (n + s.length, s, "")) PATCHED_SRC 0).2.1 ++
          (runCells (fun s (n : Nat) => (n + s.length, s, ""))
            [] ((fun s (n : Nat) => (n + s.length, s, "")) PATCHED_SRC 0).1).2.1,
        ((fun s (n : Nat) => (n + s.length, s, "")) PATCHED_SRC 0).2.2 ++
          (runCells (fun s (n : Nat) => (n + s.length, s, ""))
            [] ((fun s (n : Nat) => (n + s.length, s, "")) PATCHED_SRC 0).1).2.2) ∧
    (∀ src, (containsSub src "file_path =" && containsSub src "redfin.csv"
        && containsSub src "/content/drive") = false → maybe_patch src = src) ∧
    (execPatchedModel (fun k => if k = "REDFIN_CSV_PATH" then some "/tmp/redfin.csv" else none)
        [("other", "v")]).lookup "file_path" =
      some (DEFAULT_REDFIN
        (fun k => if k = "REDFIN_CSV_PATH" then some "/tmp/redfin.csv" else none)) :=
  spec_c4_patch_rule Nat (fun s (n : Nat) => (n + s.length, s, "")) drivePathCell [] 0
    (fun k => if k = "REDFIN_CSV_PATH" then some "/tmp/redfin.csv" else none)
    [("other", "v")] rfl (by decide) (by decide) (by decide) (by decide) (by decide)

/-- Once the cache holds the pair for the path, every further call is a pure
hit: same value each time, the cache untouched, the side effects never run. -/
theorem cacheCalls_hit {α : Type} (compute : String → α) (path : String)
    (v : α) (n : Nat) (cache : List (String × α))
    (hhit : cache.lookup path = some v) :
    cacheCalls compute path n cache = (List.replicate n v, cache, 0) := by
  induction n with
  | zero => rfl
  | succ n ih =>
    simp [cacheCalls, cacheCall, hhit, ih, List.replicate_succ]

/-- C9: with the same notebook path, the side effects of the cached bootstrap
run exactly once over any positive number of calls in one process lifetime,
and every call returns the very same computed pair. -/
theorem spec_c9_memoized_bootstrap (α : Type) (compute : String → α)
    (path : String) (cache : List (String × α)) (n : Nat)
    (hmiss : cache.lookup path = none) (hn : 0 < n) :
    (cacheCalls compute path n cache).1 = List.replicate n (compute path) ∧
    (cacheCalls compute path n cache).2.2 = 1 := by
  match n, hn with
  | Nat.succ m, _ =>
    have hhit : ((path, compute path) :: cache).lookup path = some (compute path) := by
      simp [List.lookup]
    have hrec := cacheCalls_hit compute path (compute path) m
      ((path, compute path) :: cache) hhit
    constructor <;> simp [cacheCalls, cacheCall, hmiss, hrec, List.replicate_succ]

/-- Witness for C9: three calls on the same path, a fresh cache. -/
theorem spec_c9_memoized_bootstrap_witness :
    (cacheCalls String.length "nb.ipynb" 3 []).1 =
      List.replicate 3 (String.length "nb.ipynb") ∧
    (cacheCalls String.length "nb.ipynb" 3 []).2.2 = 1 :=
  spec_c9_memoized_bootstrap Nat String.length "nb.ipynb" [] 3 rfl (by decide)
